import Mathlib

/-!
Shallow embedding of the adaptive-polling cadence, storage and fetch logic
of the hoshiyomi-rs repository (src/db.rs, src/github.rs, src/pipeline.rs).

Conventions of the embedding:
- timestamps and durations are modelled in whole minutes as integers
  (the source stores RFC 3339 strings and compares chronologically;
  gap computations in the source already truncate to whole minutes);
- the f64 arithmetic of the cadence engine is modelled over the rationals;
- the SQLite state for one followed user is a record holding the users row
  and the list of the stars rows of that user in insertion order;
- the random jitter draw of the source is passed in as an integer argument
  and mapped into the sampling range exactly as a uniform draw would be.
-/

/-- Clamp an integer into the closed interval from lo to hi, as Rust clamp
(requires lo less or equal hi at every use site, matching the source). -/
def int_clamp (x lo hi : Int) : Int := min (max x lo) hi

/-- Clamp a rational into the closed interval from lo to hi, as Rust f64 clamp. -/
def rat_clamp (x lo hi : ℚ) : ℚ := min (max x lo) hi

/-- Rounding of a rational to the nearest integer.  The source rounds an f64
with Rust round (half away from zero); every value rounded by the cadence
engine is at least the clamped minimum interval, hence positive, where half
away from zero agrees with floor of x plus one half. -/
def rat_round (x : ℚ) : Int := ⌊x + 1 / 2⌋

/-- One star event as returned by the forge client (github.rs, StarEvent). -/
structure StarEvent where
  repo_full_name : String
  repo_description : Option String
  repo_html_url : String
  starred_at : Int
  repo_language : Option String
  repo_topics : List String
deriving DecidableEq

/-- One stored row of the stars table (db.rs schema). -/
structure StarRow where
  repo_full_name : String
  repo_description : Option String
  repo_language : Option String
  repo_topics : List String
  repo_html_url : String
  starred_at : Int
  fetched_at : Int
deriving DecidableEq

/-- One row of the users table (db.rs, UserRecord). -/
structure UserRow where
  user_id : Int
  login : String
  last_starred_at : Option Int
  last_fetched_at : Option Int
  etag : Option String
  last_modified : Option String
  fetch_interval_minutes : Int
  next_check_at : Int
  activity_tier : Option String
  ema_minutes : Option ℚ
  star_count : Int
deriving DecidableEq

/-- The stored state for one followed user: its users row and its stars rows. -/
structure UserDb where
  user : UserRow
  stars : List StarRow
deriving DecidableEq

/-- The subset of the resolved configuration read by the ingestion path. -/
structure Config where
  min_interval_minutes : Int
  max_interval_minutes : Int
  default_interval_minutes : Int
deriving DecidableEq

/-- A following returned by fetch_followings (github.rs, FollowingUser). -/
structure FollowingUser where
  id : Int
  login : String
deriving DecidableEq

/-- Result of recompute_interval (db.rs, ActivityProfile). -/
structure ActivityProfile where
  interval_minutes : Int
  activity_tier : Option String
  ema_minutes : Option ℚ
deriving DecidableEq

/-- Working state of the gap walk inside recompute_interval: the running
star counter, the running EMA and the running interval. -/
structure WalkState where
  star_count : Int
  ema : Option ℚ
  interval : Int
deriving DecidableEq

/-- Tier table of db.rs derive_activity_tier: up to 60 minutes is high,
up to 24 hours is medium, above that low. -/
def derive_activity_tier (interval_minutes : Int) : String :=
  if interval_minutes ≤ 60 then "high"
  else if interval_minutes ≤ 24 * 60 then "medium"
  else "low"

/-- Strictly positive consecutive gaps of a timestamp sequence, seeded with
an optional previous timestamp.  Mirrors the prev-tracking loops of
db.rs compute_gap_minutes and compute_average_gap_minutes: the previous
timestamp always advances, and only gaps above zero are kept. -/
def positive_gap_list : Option Int → List Int → List Int
  | _, [] => []
  | none, t :: rest => positive_gap_list (some t) rest
  | some p, t :: rest =>
    if 0 < t - p then (t - p) :: positive_gap_list (some t) rest
    else positive_gap_list (some t) rest

/-- db.rs compute_gap_minutes: strictly positive minute gaps of a batch of
events in the given order, seeded with the previous last_starred_at. -/
def compute_gap_minutes (events : List StarEvent) (previous_last_starred : Option Int) : List Int :=
  positive_gap_list previous_last_starred (events.map (fun e => e.starred_at))

/-- db.rs compute_average_gap_minutes: the stored starred_at timestamps of the
user are read in ascending order; the average of the strictly positive
consecutive gaps is returned, or none when no positive gap exists. -/
def compute_average_gap_minutes (stars : List Int) : Option ℚ :=
  let gs := positive_gap_list none (stars.insertionSort (· ≤ ·))
  if gs.length = 0 then none
  else some ((gs.sum : ℚ) / (gs.length : ℚ))

/-- Smoothing factor of the cadence engine (db.rs, alpha equal 0.3). -/
def alpha : ℚ := 3 / 10

/-- Body of the gap loop of db.rs recompute_interval: bump the star counter;
below three events clear the EMA and fall back to the default interval;
otherwise bootstrap an absent EMA from the stored historical average and
apply the exponential smoothing update, rounding the result into the
interval.  The stars argument is the stored starred_at list of the user. -/
def walkStep (stars : List Int) (min_clamped max_clamped fallback_default : Int)
    (s : WalkState) (gap : Int) : WalkState :=
  let star_count := s.star_count + 1
  let gap_minutes : ℚ := ((max gap 1 : Int) : ℚ)
  if star_count < 3 then
    { star_count := star_count, ema := none, interval := fallback_default }
  else
    let ema : Option ℚ :=
      match s.ema with
      | none =>
        some (rat_clamp ((compute_average_gap_minutes stars).getD ((fallback_default : Int) : ℚ))
          ((min_clamped : Int) : ℚ) ((max_clamped : Int) : ℚ))
      | some e => some e
    match ema with
    | some current =>
      let new_ema := rat_clamp (alpha * gap_minutes + (1 - alpha) * current)
        ((min_clamped : Int) : ℚ) ((max_clamped : Int) : ℚ)
      { star_count := star_count, ema := some new_ema, interval := rat_round new_ema }
    | none => { star_count := star_count, ema := none, interval := s.interval }

/-- db.rs recompute_interval.  The stars argument is the stored starred_at
list of the user, used for the historical-average bootstrap. -/
def recompute_interval (stars : List Int)
    (min_interval max_interval default_interval previous_interval previous_star_count : Int)
    (previous_ema : Option ℚ) (new_star_count : Int) (gaps : List Int) : ActivityProfile :=
  let min_clamped := max min_interval 1
  let max_clamped := max max_interval min_clamped
  let fallback_default := int_clamp default_interval min_clamped max_clamped
  let fallback_zero := max_clamped
  let start : WalkState :=
    { star_count := previous_star_count, ema := previous_ema,
      interval := int_clamp previous_interval min_clamped max_clamped }
  let walked := gaps.foldl (walkStep stars min_clamped max_clamped fallback_default) start
  let final : WalkState :=
    if new_star_count = 0 then
      { star_count := new_star_count, ema := none, interval := fallback_zero }
    else if new_star_count < 3 then
      { star_count := new_star_count, ema := none, interval := fallback_default }
    else if gaps.isEmpty then
      match walked.ema with
      | some current =>
        { star_count := new_star_count, ema := walked.ema, interval := rat_round current }
      | none =>
        match compute_average_gap_minutes stars with
        | some avg =>
          let clamped := rat_clamp avg ((min_clamped : Int) : ℚ) ((max_clamped : Int) : ℚ)
          { star_count := new_star_count, ema := some clamped, interval := rat_round clamped }
        | none =>
          { star_count := new_star_count, ema := walked.ema, interval := fallback_default }
    else
      { walked with star_count := new_star_count }
  let interval_minutes := int_clamp final.interval min_clamped max_clamped
  { interval_minutes := interval_minutes,
    activity_tier := some (derive_activity_tier interval_minutes),
    ema_minutes := final.ema }

/-- Jitter cap of db.rs next_check_with_jitter: ceiling of a tenth of the
interval, clamped into one to thirty. -/
def jitter_cap (interval_minutes : Int) : Int :=
  int_clamp ⌈(interval_minutes : ℚ) * (1 / 10)⌉ 1 30

/-- Model of rand gen_range over the inclusive range lo to hi: the draw
argument stands for the generator output and is mapped into the range. -/
def gen_range (lo hi draw : Int) : Int := lo + draw % (hi - lo + 1)

/-- db.rs next_check_with_jitter: nonpositive intervals advance one minute;
otherwise a uniform jitter bounded by the jitter cap is added and the total
delay is floored at one minute. -/
def next_check_with_jitter (base interval_minutes draw : Int) : Int :=
  if interval_minutes ≤ 0 then base + 1
  else
    let cap := jitter_cap interval_minutes
    let jitter := if 0 < cap then gen_range (-cap) cap draw else 0
    base + max (interval_minutes + jitter) 1

/-- db.rs record_not_modified: update last_fetched_at and next_check_at only. -/
def record_not_modified (db : UserDb) (fetched_at interval_minutes draw : Int) : UserDb :=
  { db with user := { db.user with
      last_fetched_at := some fetched_at,
      next_check_at := next_check_with_jitter fetched_at interval_minutes draw } }

/-- db.rs defer_user: set next_check_at to now plus the wait and stamp
last_fetched_at with now; when the stored interval is zero, seed it with the
wait in whole minutes floored at one. -/
def defer_user (db : UserDb) (now wait_minutes : Int) : UserDb :=
  let current_fetch_interval := db.user.fetch_interval_minutes
  let u := { db.user with
    next_check_at := now + wait_minutes,
    last_fetched_at := some now }
  let u2 :=
    if current_fetch_interval = 0 then
      { u with fetch_interval_minutes := max wait_minutes 1 }
    else u
  { db with user := u2 }

/-- db.rs upsert_followings, restricted to a single user: a missing row is
inserted with the initial interval, next_check_at now, tier low, no EMA and
zero stars; an existing row only has its login refreshed. -/
def upsert_following (existing : Option UserRow) (u : FollowingUser)
    (initial_interval_minutes now : Int) : UserRow :=
  match existing with
  | none =>
    { user_id := u.id, login := u.login, last_starred_at := none,
      last_fetched_at := none, etag := none, last_modified := none,
      fetch_interval_minutes := initial_interval_minutes, next_check_at := now,
      activity_tier := some "low", ema_minutes := none, star_count := 0 }
  | some row => { row with login := u.login }

/-- SQL COALESCE of a new optional value over the stored one, as used by the
conditional etag and last_modified updates: the stored value is replaced
only when a new value is present. -/
def coalesce_update (new_value stored : Option String) : Option String :=
  match new_value with
  | some v => some v
  | none => stored

/-- SQL COALESCE keeping a present stored value, as used by the cached
last_starred_at write of update_after_events. -/
def coalesce_keep (stored : Option Int) (v : Int) : Option Int :=
  match stored with
  | some o => some o
  | none => some v

/-- The bump-only update of last_starred_at in insert_star_events: replaced
by the batch maximum only when absent or strictly smaller. -/
def bump_last_starred (stored : Option Int) (batch_max : Option Int) : Option Int :=
  match batch_max, stored with
  | none, p => p
  | some m, none => some m
  | some m, some p => if p < m then some m else some p

/-- Does a stored stars row already carry this uniqueness key
(repo_full_name, starred_at) for the user. -/
def star_key_present (stars : List StarRow) (repo : String) (t : Int) : Bool :=
  stars.any (fun r => r.repo_full_name == repo && r.starred_at == t)

/-- INSERT OR IGNORE of one star event under the uniqueness key of the stars
table; returns the new list and the number of rows inserted (zero or one). -/
def insert_or_ignore (stars : List StarRow) (e : StarEvent) (fetched_at : Int) :
    List StarRow × Int :=
  if star_key_present stars e.repo_full_name e.starred_at then (stars, 0)
  else
    (stars ++ [{ repo_full_name := e.repo_full_name,
                 repo_description := e.repo_description,
                 repo_language := e.repo_language,
                 repo_topics := e.repo_topics,
                 repo_html_url := e.repo_html_url,
                 starred_at := e.starred_at,
                 fetched_at := fetched_at }], 1)

/-- Body of the insertion loop of insert_star_events: insert one event
ignoring duplicates and add the inserted-row count to the accumulator. -/
def ingest_step (fetched_at : Int) (acc : List StarRow × Int) (e : StarEvent) :
    List StarRow × Int :=
  let r := insert_or_ignore acc.1 e fetched_at
  (r.1, acc.2 + r.2)

/-- The first transaction of db.rs insert_star_events: insert the events
ignoring duplicates, bump last_starred_at only if advancing, set the cache
validators when present, and stamp last_fetched_at.  Committed as one
transaction; returns the number of newly inserted rows. -/
def insert_star_events_tx (db : UserDb) (events : List StarEvent) (fetched_at : Int)
    (etag last_modified : Option String) : UserDb × Int :=
  let folded := events.foldl (ingest_step fetched_at) (db.stars, (0 : Int))
  let u := db.user
  ({ stars := folded.1,
     user := { u with
       last_starred_at := bump_last_starred u.last_starred_at
         ((events.map (fun e => e.starred_at)).max?),
       etag := coalesce_update etag u.etag,
       last_modified := coalesce_update last_modified u.last_modified,
       last_fetched_at := some fetched_at } }, folded.2)

/-- db.rs update_after_events: run the cadence engine over the stored stars
and the gap list, then write next_check_at, the new interval, tier, EMA and
star count in one UPDATE; the user argument is the snapshot row of the caller.
Returns the newly chosen interval. -/
def update_after_events (db : UserDb) (user : UserRow) (cached_last_starred : Option Int)
    (fetched_at : Int) (etag last_modified : Option String) (cfg : Config)
    (inserted_count : Int) (gaps : List Int) (draw : Int) : UserDb × Int :=
  let new_star_count := user.star_count + inserted_count
  let activity := recompute_interval (db.stars.map (fun r => r.starred_at))
    cfg.min_interval_minutes cfg.max_interval_minutes cfg.default_interval_minutes
    user.fetch_interval_minutes user.star_count user.ema_minutes new_star_count gaps
  let next_check := next_check_with_jitter fetched_at activity.interval_minutes draw
  let u := db.user
  let u2 := { u with
    next_check_at := next_check,
    fetch_interval_minutes := activity.interval_minutes,
    last_fetched_at := some fetched_at,
    etag := coalesce_update etag u.etag,
    last_modified := coalesce_update last_modified u.last_modified,
    activity_tier := activity.activity_tier,
    ema_minutes := activity.ema_minutes,
    star_count := new_star_count }
  let u3 :=
    match cached_last_starred with
    | some ls => { u2 with last_starred_at := coalesce_keep u2.last_starred_at ls }
    | none => u2
  ({ user := u3, stars := db.stars }, activity.interval_minutes)

/-- db.rs insert_star_events: with no events only the metadata update runs
and the snapshot interval is returned; otherwise the event transaction runs
and commits first, then the gaps are computed from the chronologically
sorted batch against the snapshot last_starred_at and the cadence update
runs as a separate later write. -/
def insert_star_events (db : UserDb) (user : UserRow) (events : List StarEvent)
    (fetched_at : Int) (etag last_modified : Option String) (cfg : Config)
    (draw : Int) : UserDb × Int :=
  if events.isEmpty then
    let r := update_after_events db user user.last_starred_at fetched_at etag last_modified
      cfg 0 [] draw
    (r.1, user.fetch_interval_minutes)
  else
    let p := insert_star_events_tx db events fetched_at etag last_modified
    let sorted_events := events.insertionSort (fun a b => a.starred_at ≤ b.starred_at)
    let gaps := compute_gap_minutes sorted_events user.last_starred_at
    update_after_events p.1 user none fetched_at etag last_modified cfg p.2 gaps draw

/-- The database states made durable by one run of insert_star_events, in
commit order.  The source commits the event-insertion transaction first
(db.rs tx.commit) and only afterwards performs the cadence UPDATE on a
fresh connection, so with a nonempty batch there are two separately
committed states and a failure between them leaves only the first visible. -/
def insert_star_events_commit_states (db : UserDb) (user : UserRow)
    (events : List StarEvent) (fetched_at : Int) (etag last_modified : Option String)
    (cfg : Config) (draw : Int) : List UserDb :=
  if events.isEmpty then
    [(update_after_events db user user.last_starred_at fetched_at etag last_modified
        cfg 0 [] draw).1]
  else
    let p := insert_star_events_tx db events fetched_at etag last_modified
    let sorted_events := events.insertionSort (fun a b => a.starred_at ≤ b.starred_at)
    let gaps := compute_gap_minutes sorted_events user.last_starred_at
    [p.1, (update_after_events p.1 user none fetched_at etag last_modified cfg p.2 gaps draw).1]

/-- Retention test of the known_latest pruning in github.rs fetch_starred:
an event is kept only when its starred_at is strictly above the high-water
mark; a timestamp equal to the mark counts as already seen. -/
def keep_new (known_latest : Option Int) (e : StarEvent) : Bool :=
  match known_latest with
  | none => true
  | some t => decide (t < e.starred_at)

/-- Page size of the forge pagination (github.rs PER_PAGE). -/
def per_page : Nat := 100

/-- The pagination loop of github.rs fetch_starred over the successive page
bodies served by the forge, with the page beyond the served list empty:
an empty body stops; an event at or below known_latest discards itself and
all remaining pages; a page whose kept events number fewer than the page
size is the last one consumed. -/
def fetch_starred_pages (known_latest : Option Int) : List (List StarEvent) → List StarEvent
  | [] => []
  | body :: rest =>
    if body.isEmpty then []
    else
      let kept := body.takeWhile (keep_new known_latest)
      if kept.length < body.length then kept
      else if body.length < per_page then kept
      else kept ++ fetch_starred_pages known_latest rest

/-!
Helper lemmas.
-/

theorem takeWhile_append_of_eq {α : Type} (f : α → Bool) {l : List α}
    (h : l.takeWhile f = l) (m : List α) :
    (l ++ m).takeWhile f = l ++ m.takeWhile f := by
  induction l with
  | nil => simp
  | cons a t ih =>
    by_cases hf : f a
    · simp only [List.takeWhile_cons, hf] at h ⊢
      have ht : t.takeWhile f = t := by
        simpa [hf] using h
      simp [List.cons_append, List.takeWhile_cons, hf, ih ht]
    · simp [List.takeWhile_cons, hf] at h

theorem takeWhile_append_of_ne {α : Type} (f : α → Bool) {l : List α}
    (h : l.takeWhile f ≠ l) (m : List α) :
    (l ++ m).takeWhile f = l.takeWhile f := by
  induction l with
  | nil => simp at h
  | cons a t ih =>
    by_cases hf : f a
    · have ht : t.takeWhile f ≠ t := by
        intro he
        exact h (by simp [List.takeWhile_cons, hf, he])
      simp [List.cons_append, List.takeWhile_cons, hf, ih ht]
    · simp [List.cons_append, List.takeWhile_cons, hf]

theorem length_takeWhile_le {α : Type} (f : α → Bool) (l : List α) :
    (l.takeWhile f).length ≤ l.length := by
  induction l with
  | nil => simp
  | cons a t ih =>
    by_cases hf : f a
    · simp [List.takeWhile_cons, hf]; omega
    · simp [List.takeWhile_cons, hf]

theorem takeWhile_eq_of_length {α : Type} (f : α → Bool) (l : List α)
    (h : ¬ (l.takeWhile f).length < l.length) : l.takeWhile f = l := by
  induction l with
  | nil => simp
  | cons a t ih =>
    by_cases hf : f a
    · simp only [List.takeWhile_cons, hf, if_true] at h ⊢
      simp only [List.length_cons] at h
      have := ih (by omega)
      simp [this]
    · simp [List.takeWhile_cons, hf, List.length_cons] at h

theorem star_key_present_insert_mono (stars : List StarRow) (e : StarEvent)
    (fetched_at : Int) (r : String) (t : Int)
    (h : star_key_present stars r t = true) :
    star_key_present (insert_or_ignore stars e fetched_at).1 r t = true := by
  unfold insert_or_ignore
  split
  · exact h
  · simp only [star_key_present, List.any_append] at h ⊢
    simp [h]

theorem star_key_present_insert_self (stars : List StarRow) (e : StarEvent)
    (fetched_at : Int) :
    star_key_present (insert_or_ignore stars e fetched_at).1
      e.repo_full_name e.starred_at = true := by
  unfold insert_or_ignore
  split
  · assumption
  · simp [star_key_present, List.any_append]

theorem ingest_foldl_present_mono (fetched_at : Int) (events : List StarEvent)
    (acc : List StarRow × Int) (r : String) (t : Int)
    (h : star_key_present acc.1 r t = true) :
    star_key_present (events.foldl (ingest_step fetched_at) acc).1 r t = true := by
  induction events generalizing acc with
  | nil => exact h
  | cons e rest ih =>
    exact ih _ (star_key_present_insert_mono _ _ _ _ _ h)

theorem ingest_foldl_present_mem (fetched_at : Int) (events : List StarEvent)
    (acc : List StarRow × Int) :
    ∀ e ∈ events,
      star_key_present (events.foldl (ingest_step fetched_at) acc).1
        e.repo_full_name e.starred_at = true := by
  induction events generalizing acc with
  | nil => intro e he; simp at he
  | cons a rest ih =>
    intro e he
    rcases List.mem_cons.mp he with rfl | hmem
    · rw [List.foldl_cons]
      exact ingest_foldl_present_mono fetched_at rest (ingest_step fetched_at acc e) _ _
        (star_key_present_insert_self acc.1 e fetched_at)
    · rw [List.foldl_cons]
      exact ih (ingest_step fetched_at acc a) e hmem

theorem ingest_foldl_noop (fetched_at : Int) (events : List StarEvent)
    (acc : List StarRow × Int)
    (h : ∀ e ∈ events, star_key_present acc.1 e.repo_full_name e.starred_at = true) :
    events.foldl (ingest_step fetched_at) acc = acc := by
  induction events generalizing acc with
  | nil => rfl
  | cons a rest ih =>
    have ha := h a (by simp)
    have hstep : ingest_step fetched_at acc a = acc := by
      simp [ingest_step, insert_or_ignore, ha]
    rw [List.foldl_cons, hstep]
    exact ih acc (fun e he => h e (by simp [he]))

theorem bump_last_starred_idem (p o : Option Int) :
    bump_last_starred (bump_last_starred p o) o = bump_last_starred p o := by
  cases o with
  | none => cases p <;> rfl
  | some m =>
    cases p with
    | none => simp [bump_last_starred]
    | some x =>
      by_cases hx : x < m
      · simp [bump_last_starred, hx]
      · simp [bump_last_starred, hx]

theorem update_after_events_stars (db : UserDb) (user : UserRow) (c : Option Int)
    (fetched_at : Int) (etag last_modified : Option String) (cfg : Config)
    (n : Int) (gaps : List Int) (draw : Int) :
    (update_after_events db user c fetched_at etag last_modified cfg n gaps draw).1.stars =
      db.stars := by
  cases c <;> rfl

theorem update_after_events_star_count (db : UserDb) (user : UserRow) (c : Option Int)
    (fetched_at : Int) (etag last_modified : Option String) (cfg : Config)
    (n : Int) (gaps : List Int) (draw : Int) :
    (update_after_events db user c fetched_at etag last_modified cfg n gaps
      draw).1.user.star_count = user.star_count + n := by
  cases c <;> rfl

theorem update_after_events_last_starred (db : UserDb) (user : UserRow) (c : Option Int)
    (fetched_at : Int) (etag last_modified : Option String) (cfg : Config)
    (n : Int) (gaps : List Int) (draw : Int) :
    (update_after_events db user c fetched_at etag last_modified cfg n gaps
      draw).1.user.last_starred_at =
      (match c with
       | none => db.user.last_starred_at
       | some ls => coalesce_keep db.user.last_starred_at ls) := by
  cases c <;> rfl

/-!
Claim theorems.
-/

/-- C1: once the working star counter has reached three and the EMA is
present, one gap g (floored at one minute) updates the EMA to the clamp of
three tenths of g plus seven tenths of the old EMA into the clamped band,
and sets the interval to the rounding of the new EMA; in particular with
minimum 10, maximum 10080, default 60, previous interval 90, star count 3,
EMA 90, new star count 4 and gaps the single entry 30, recompute_interval
yields interval 72, tier medium and EMA 72. -/
theorem claim_C1_ema_smoothing :
    (∀ (stars : List Int) (mi ma de : Int) (s : WalkState) (g : Int) (e : ℚ),
      s.ema = some e → 3 ≤ s.star_count + 1 →
      walkStep stars (max mi 1) (max ma (max mi 1))
          (int_clamp de (max mi 1) (max ma (max mi 1))) s g =
        { star_count := s.star_count + 1,
          ema := some (rat_clamp (3 / 10 * ((max g 1 : Int) : ℚ) + 7 / 10 * e)
            ((max mi 1 : Int) : ℚ) ((max ma (max mi 1) : Int) : ℚ)),
          interval := rat_round (rat_clamp (3 / 10 * ((max g 1 : Int) : ℚ) + 7 / 10 * e)
            ((max mi 1 : Int) : ℚ) ((max ma (max mi 1) : Int) : ℚ)) }) ∧
    recompute_interval [] 10 10080 60 90 3 (some 90) 4 [30] =
      { interval_minutes := 72, activity_tier := some "medium", ema_minutes := some 72 } := by
  constructor
  · intro stars mi ma de s g e he hc
    simp only [walkStep, he]
    rw [if_neg (by omega)]
    have : (1 : ℚ) - alpha = 7 / 10 := by norm_num [alpha]
    simp [alpha]
    norm_num
  · simp [recompute_interval, walkStep, alpha, rat_clamp, rat_round, int_clamp,
      derive_activity_tier, ActivityProfile.mk.injEq]
    norm_num

/-- C1 witness: the smoothing step at the concrete scenario of the claim. -/
theorem claim_C1_witness :
    walkStep [] (max 10 1) (max 10080 (max 10 1))
      (int_clamp 60 (max 10 1) (max 10080 (max 10 1)))
      { star_count := 3, ema := some 90, interval := 90 } 30 =
      { star_count := 4, ema := some 72, interval := 72 } := by
  rw [claim_C1_ema_smoothing.1 [] 10 10080 60
    { star_count := 3, ema := some 90, interval := 90 } 30 90 rfl (by decide)]
  simp [rat_clamp, rat_round, WalkState.mk.injEq]
  norm_num

/-- C2: when the working star counter reaches three while the EMA is absent,
the walk bootstraps the EMA from the average of the strictly positive gaps
of the stored star timestamps (default interval when no positive gap
exists), clamped into the band, and then applies the smoothing update; in
particular with stored stars at 0, 1440 and 2160 minutes, previous interval
60, star count 2, absent EMA, new star count 3 and gaps the single entry
720, recompute_interval yields interval 972, tier medium and EMA 972. -/
theorem claim_C2_ema_bootstrap :
    (∀ (stars : List Int) (mi ma de : Int) (s : WalkState) (g : Int),
      s.ema = none → 3 ≤ s.star_count + 1 →
      walkStep stars (max mi 1) (max ma (max mi 1))
          (int_clamp de (max mi 1) (max ma (max mi 1))) s g =
        { star_count := s.star_count + 1,
          ema := some (rat_clamp (3 / 10 * ((max g 1 : Int) : ℚ) + 7 / 10 *
            (rat_clamp ((compute_average_gap_minutes stars).getD
                ((int_clamp de (max mi 1) (max ma (max mi 1)) : Int) : ℚ))
              ((max mi 1 : Int) : ℚ) ((max ma (max mi 1) : Int) : ℚ)))
            ((max mi 1 : Int) : ℚ) ((max ma (max mi 1) : Int) : ℚ)),
          interval := rat_round (rat_clamp (3 / 10 * ((max g 1 : Int) : ℚ) + 7 / 10 *
            (rat_clamp ((compute_average_gap_minutes stars).getD
                ((int_clamp de (max mi 1) (max ma (max mi 1)) : Int) : ℚ))
              ((max mi 1 : Int) : ℚ) ((max ma (max mi 1) : Int) : ℚ)))
            ((max mi 1 : Int) : ℚ) ((max ma (max mi 1) : Int) : ℚ)) }) ∧
    recompute_interval [0, 1440, 2160] 10 10080 60 60 2 none 3 [720] =
      { interval_minutes := 972, activity_tier := some "medium", ema_minutes := some 972 } := by
  constructor
  · intro stars mi ma de s g he hc
    simp only [walkStep, he]
    rw [if_neg (by omega)]
    simp [alpha]
    norm_num
  · simp [recompute_interval, walkStep, alpha, rat_clamp, rat_round, int_clamp,
      compute_average_gap_minutes, positive_gap_list, List.insertionSort, List.orderedInsert,
      derive_activity_tier, ActivityProfile.mk.injEq]
    norm_num

/-- C2 witness: the bootstrap step at the concrete scenario of the claim. -/
theorem claim_C2_witness :
    walkStep [0, 1440, 2160] (max 10 1) (max 10080 (max 10 1))
      (int_clamp 60 (max 10 1) (max 10080 (max 10 1)))
      { star_count := 2, ema := none, interval := 60 } 720 =
      { star_count := 3, ema := some 972, interval := 972 } := by
  rw [claim_C2_ema_bootstrap.1 [0, 1440, 2160] 10 10080 60
    { star_count := 2, ema := none, interval := 60 } 720 rfl (by decide)]
  simp [rat_clamp, rat_round, compute_average_gap_minutes, positive_gap_list,
    List.insertionSort, List.orderedInsert, WalkState.mk.injEq]
  norm_num

/-- C3: whatever the other inputs, a final star count of zero makes
recompute_interval return an absent EMA and the clamped maximum interval,
and a final star count of one or two makes it return an absent EMA and the
default interval clamped into the band. -/
theorem claim_C3_rest_invariants :
    ∀ (stars : List Int) (mi ma de pi psc : Int) (pe : Option ℚ) (nsc : Int)
      (gaps : List Int),
      (nsc = 0 →
        (recompute_interval stars mi ma de pi psc pe nsc gaps).ema_minutes = none ∧
        (recompute_interval stars mi ma de pi psc pe nsc gaps).interval_minutes =
          max ma (max mi 1)) ∧
      (nsc = 1 ∨ nsc = 2 →
        (recompute_interval stars mi ma de pi psc pe nsc gaps).ema_minutes = none ∧
        (recompute_interval stars mi ma de pi psc pe nsc gaps).interval_minutes =
          int_clamp de (max mi 1) (max ma (max mi 1))) := by
  intro stars mi ma de pi psc pe nsc gaps
  constructor
  · rintro rfl
    simp only [recompute_interval]
    norm_num
    simp [int_clamp]
    try omega
  · rintro (rfl | rfl) <;>
      (simp only [recompute_interval]
       norm_num
       simp [int_clamp]
       try omega)

/-- C3 witness: the zero-star and two-star cases at concrete inputs. -/
theorem claim_C3_witness :
    (recompute_interval [] 10 10080 60 60 0 none 0 []).ema_minutes = none ∧
    (recompute_interval [] 10 10080 60 60 0 none 0 []).interval_minutes =
      max 10080 (max 10 1) ∧
    (recompute_interval [] 10 10080 60 60 1 none 2 [30]).ema_minutes = none ∧
    (recompute_interval [] 10 10080 60 60 1 none 2 [30]).interval_minutes =
      int_clamp 60 (max 10 1) (max 10080 (max 10 1)) := by
  obtain ⟨h1, _⟩ := claim_C3_rest_invariants [] 10 10080 60 60 0 none 0 []
  obtain ⟨_, h4⟩ := claim_C3_rest_invariants [] 10 10080 60 60 1 none 2 [30]
  exact ⟨(h1 rfl).1, (h1 rfl).2, (h4 (Or.inr rfl)).1, (h4 (Or.inr rfl)).2⟩

/-- Sample configuration used by concrete scenarios: minimum 10, maximum
10080, default 60 minutes, the values of the concrete spec scenarios. -/
def cfg_sample : Config :=
  { min_interval_minutes := 10, max_interval_minutes := 10080, default_interval_minutes := 60 }

/-- Sample stored user row used by concrete scenarios. -/
def sample_user : UserRow :=
  { user_id := 1, login := "alice", last_starred_at := some 1000,
    last_fetched_at := some 500, etag := some "e1", last_modified := some "m1",
    fetch_interval_minutes := 90, next_check_at := 600,
    activity_tier := some "medium", ema_minutes := some 90, star_count := 3 }

/-- Sample stored stars row constructor used by concrete scenarios. -/
def sample_star_row (name : String) (t : Int) : StarRow :=
  { repo_full_name := name, repo_description := none, repo_language := none,
    repo_topics := [], repo_html_url := "u", starred_at := t, fetched_at := t }

/-- C5 counterexample: with the valid configuration minimum 1 and maximum
60, a user freshly inserted by upsert_followings with the initial interval
of the scheduler equal to the maximum carries tier low although the tier
table derives high from its interval, so the fresh-user part of the claim
fails for this configuration. -/
theorem claim_C5_counterexample :
    (1 : Int) ≤ 1 ∧ (1 : Int) ≤ 60 ∧
    (upsert_following none { id := 7, login := "alice" } 60 0).fetch_interval_minutes = 60 ∧
    (upsert_following none { id := 7, login := "alice" } 60 0).activity_tier ≠
      some (derive_activity_tier
        (upsert_following none { id := 7, login := "alice" } 60 0).fetch_interval_minutes) := by
  refine ⟨by decide, by decide, by decide, ?_⟩
  simp [upsert_following, derive_activity_tier]

/-- C5 amended: the profile produced by recompute_interval always carries
the tier derived from its interval by the tier table; a user freshly
inserted by upsert_followings gets tier low and the initial interval, which
agrees with the derived tier exactly when the initial interval is above
1440 minutes (so for configurations whose maximum interval is above a day). -/
theorem claim_C5_tier_consistency :
    (∀ (stars : List Int) (mi ma de pi psc : Int) (pe : Option ℚ) (nsc : Int)
      (gaps : List Int),
      (recompute_interval stars mi ma de pi psc pe nsc gaps).activity_tier =
        some (derive_activity_tier
          (recompute_interval stars mi ma de pi psc pe nsc gaps).interval_minutes)) ∧
    (∀ (u : FollowingUser) (initial_interval now : Int), 1440 < initial_interval →
      (upsert_following none u initial_interval now).activity_tier =
        some (derive_activity_tier
          (upsert_following none u initial_interval now).fetch_interval_minutes)) := by
  constructor
  · intro stars mi ma de pi psc pe nsc gaps
    rfl
  · intro u initial_interval now h
    simp only [upsert_following]
    rw [derive_activity_tier]
    rw [if_neg (by omega), if_neg (by omega)]

/-- C5 witness: the fresh-user consistency at initial interval 2000. -/
theorem claim_C5_witness :
    (upsert_following none { id := 7, login := "bob" } 2000 0).activity_tier =
      some (derive_activity_tier
        (upsert_following none { id := 7, login := "bob" } 2000 0).fetch_interval_minutes) :=
  claim_C5_tier_consistency.2 { id := 7, login := "bob" } 2000 0 (by decide)

/-- C7: record_not_modified leaves star count, last starred, EMA, interval,
etag, last modified, tier and the stars rows unchanged, and only sets
last_fetched_at to the fetch time and next_check_at to the fetch time plus
the jittered interval. -/
theorem claim_C7_not_modified_frame :
    ∀ (db : UserDb) (fetched_at interval_minutes draw : Int),
      (record_not_modified db fetched_at interval_minutes draw).user.star_count =
        db.user.star_count ∧
      (record_not_modified db fetched_at interval_minutes draw).user.last_starred_at =
        db.user.last_starred_at ∧
      (record_not_modified db fetched_at interval_minutes draw).user.ema_minutes =
        db.user.ema_minutes ∧
      (record_not_modified db fetched_at interval_minutes draw).user.fetch_interval_minutes =
        db.user.fetch_interval_minutes ∧
      (record_not_modified db fetched_at interval_minutes draw).user.etag = db.user.etag ∧
      (record_not_modified db fetched_at interval_minutes draw).user.last_modified =
        db.user.last_modified ∧
      (record_not_modified db fetched_at interval_minutes draw).user.activity_tier =
        db.user.activity_tier ∧
      (record_not_modified db fetched_at interval_minutes draw).stars = db.stars ∧
      (record_not_modified db fetched_at interval_minutes draw).user.last_fetched_at =
        some fetched_at ∧
      (record_not_modified db fetched_at interval_minutes draw).user.next_check_at =
        next_check_with_jitter fetched_at interval_minutes draw := by
  intro db fetched_at interval_minutes draw
  exact ⟨rfl, rfl, rfl, rfl, rfl, rfl, rfl, rfl, rfl, rfl⟩

/-- Any draw lands the gen_range model inside the inclusive range. -/
theorem gen_range_mem (lo hi draw : Int) (h : lo ≤ hi) :
    lo ≤ gen_range lo hi draw ∧ gen_range lo hi draw ≤ hi := by
  have hpos : 0 < hi - lo + 1 := by omega
  have h1 := Int.emod_nonneg draw (by omega : hi - lo + 1 ≠ 0)
  have h2 := Int.emod_lt_of_pos draw hpos
  unfold gen_range
  omega

/-- The jitter cap is always at least one. -/
theorem jitter_cap_pos (interval_minutes : Int) : 1 ≤ jitter_cap interval_minutes := by
  simp only [jitter_cap, int_clamp]
  omega

/-- C9: for a positive interval the jittered delay of next_check_with_jitter
lies between the maximum of one and the interval minus the cap, and the
interval plus the cap, where the cap is the ceiling of a tenth of the
interval clamped into one to thirty. -/
theorem claim_C9_jitter_bounds :
    ∀ (base interval_minutes draw : Int), 0 < interval_minutes →
      max 1 (interval_minutes - jitter_cap interval_minutes) ≤
        next_check_with_jitter base interval_minutes draw - base ∧
      next_check_with_jitter base interval_minutes draw - base ≤
        interval_minutes + jitter_cap interval_minutes := by
  intro base interval_minutes draw hpos
  have hcap := jitter_cap_pos interval_minutes
  simp only [next_check_with_jitter]
  rw [if_neg (by omega), if_pos (by omega)]
  have hg := gen_range_mem (-(jitter_cap interval_minutes)) (jitter_cap interval_minutes)
    draw (by omega)
  omega

/-- C9 witness: the bounds at interval 120 and draw 7. -/
theorem claim_C9_witness :
    max 1 (120 - jitter_cap 120) ≤ next_check_with_jitter 0 120 7 - 0 ∧
    next_check_with_jitter 0 120 7 - 0 ≤ 120 + jitter_cap 120 :=
  claim_C9_jitter_bounds 0 120 7 (by decide)

/-- C10 counterexample: defer_user overwrites last_fetched_at with now,
so the claim that last_fetched_at is left unchanged fails. -/
theorem claim_C10_counterexample :
    (defer_user { user := sample_user, stars := [] } 700 30).user.last_fetched_at ≠
      ({ user := sample_user, stars := [] } : UserDb).user.last_fetched_at := by
  decide

/-- C10 amended: defer_user sets next_check_at to now plus the wait, stamps
last_fetched_at with now, seeds the interval with the wait floored at one
minute exactly when the stored interval is zero, and leaves last starred,
etag, last modified, EMA, tier, star count and the stars rows unchanged. -/
theorem claim_C10_defer_effects :
    ∀ (db : UserDb) (now wait_minutes : Int),
      (defer_user db now wait_minutes).user.next_check_at = now + wait_minutes ∧
      (defer_user db now wait_minutes).user.last_fetched_at = some now ∧
      (defer_user db now wait_minutes).user.fetch_interval_minutes =
        (if db.user.fetch_interval_minutes = 0 then max wait_minutes 1
         else db.user.fetch_interval_minutes) ∧
      (defer_user db now wait_minutes).user.last_starred_at = db.user.last_starred_at ∧
      (defer_user db now wait_minutes).user.etag = db.user.etag ∧
      (defer_user db now wait_minutes).user.last_modified = db.user.last_modified ∧
      (defer_user db now wait_minutes).user.ema_minutes = db.user.ema_minutes ∧
      (defer_user db now wait_minutes).user.activity_tier = db.user.activity_tier ∧
      (defer_user db now wait_minutes).user.star_count = db.user.star_count ∧
      (defer_user db now wait_minutes).stars = db.stars := by
  intro db now wait_minutes
  by_cases h : db.user.fetch_interval_minutes = 0 <;>
    simp [defer_user, h]

/-- C8: over any paginated response in which every page before the last is
full, fetch_starred keeps exactly the events with starred_at strictly above
the known_latest high-water mark that precede the first event at or below
it in page order; that event and all remaining pages are skipped, and an
event exactly at the mark counts as already seen. -/
theorem claim_C8_pruning :
    ∀ (t : Int) (pages : List (List StarEvent)),
      (∀ p ∈ pages.dropLast, p.length = per_page) →
      fetch_starred_pages (some t) pages =
        pages.flatten.takeWhile (keep_new (some t)) := by
  intro t pages
  induction pages with
  | nil => intro _; simp [fetch_starred_pages]
  | cons body rest ih =>
    intro hfull
    rw [fetch_starred_pages]
    by_cases hb : body.isEmpty
    · have : body = [] := by simpa [List.isEmpty_iff] using hb
      subst this
      cases rest with
      | nil => simp
      | cons r rs =>
        have := hfull [] (by simp [List.dropLast])
        simp [per_page] at this
    · rw [if_neg hb]
      by_cases hcut : (body.takeWhile (keep_new (some t))).length < body.length
      · rw [if_pos hcut]
        have hne : body.takeWhile (keep_new (some t)) ≠ body := by
          intro he
          rw [he] at hcut
          omega
        rw [List.flatten_cons, takeWhile_append_of_ne _ hne]
      · rw [if_neg hcut]
        have heq : body.takeWhile (keep_new (some t)) = body :=
          takeWhile_eq_of_length _ _ hcut
        by_cases hshort : body.length < per_page
        · rw [if_pos hshort]
          cases rest with
          | nil => simp [List.flatten_cons, takeWhile_append_of_eq _ heq, heq]
          | cons r rs =>
            have := hfull body (by simp [List.dropLast])
            omega
        · rw [if_neg hshort]
          have hrest : ∀ p ∈ rest.dropLast, p.length = per_page := by
            intro p hp
            apply hfull
            cases rest with
            | nil => simp at hp
            | cons r rs => simp [List.dropLast] at hp ⊢; tauto
          rw [List.flatten_cons, takeWhile_append_of_eq _ heq, heq, ih hrest]

/-- Sample events used by the fetch pruning witness. -/
def sample_event (name : String) (t : Int) : StarEvent :=
  { repo_full_name := name, repo_description := none, repo_html_url := "u",
    starred_at := t, repo_language := none, repo_topics := [] }

/-- C8 witness: a single short page with one retained and one pruned event. -/
theorem claim_C8_witness :
    fetch_starred_pages (some 10) [[sample_event "a/r1" 12, sample_event "a/r2" 9]] =
      ([[sample_event "a/r1" 12, sample_event "a/r2" 9]] :
        List (List StarEvent)).flatten.takeWhile (keep_new (some 10)) ∧
    fetch_starred_pages (some 10) [[sample_event "a/r1" 12, sample_event "a/r2" 9]] =
      [sample_event "a/r1" 12] := by
  constructor
  · exact claim_C8_pruning 10 [[sample_event "a/r1" 12, sample_event "a/r2" 9]] (by simp)
  · decide

/-- Sample users row for the atomicity scenario: a user with no stars yet. -/
def c4_user : UserRow :=
  { user_id := 2, login := "carol", last_starred_at := none,
    last_fetched_at := none, etag := none, last_modified := none,
    fetch_interval_minutes := 50, next_check_at := 0,
    activity_tier := some "low", ema_minutes := none, star_count := 0 }

/-- Sample state for the atomicity scenario. -/
def c4_db : UserDb := { user := c4_user, stars := [] }

/-- The single incoming event of the atomicity scenario. -/
def c4_event : StarEvent :=
  { repo_full_name := "carol/r9", repo_description := none, repo_html_url := "u",
    starred_at := 100, repo_language := none, repo_topics := [] }

/-- C4 counterexample: the state committed by the first transaction of
insert_star_events is one of the durable states of the run, and at this
concrete input it has the star row inserted while star count, interval and
next_check_at are still the old values, so the all-or-nothing claim fails:
a failure of the later cadence write leaves exactly this state visible. -/
theorem claim_C4_counterexample :
    (insert_star_events_tx c4_db [c4_event] 200 none none).1 ∈
      insert_star_events_commit_states c4_db c4_db.user [c4_event] 200 none none
        cfg_sample 0 ∧
    (insert_star_events_tx c4_db [c4_event] 200 none none).1.stars.length = 1 ∧
    c4_db.stars.length = 0 ∧
    (insert_star_events_tx c4_db [c4_event] 200 none none).1.user.star_count =
      c4_db.user.star_count ∧
    (insert_star_events_tx c4_db [c4_event] 200 none none).1.user.fetch_interval_minutes =
      c4_db.user.fetch_interval_minutes ∧
    (insert_star_events_tx c4_db [c4_event] 200 none none).1.user.next_check_at =
      c4_db.user.next_check_at := by
  refine ⟨?_, by decide, by decide, rfl, rfl, rfl⟩
  exact List.mem_cons_self _ _

/-- C4 amended: with a nonempty batch, insert_star_events commits two
separate states: first the event-insertion transaction, which inserts the
star rows and updates last starred, the validators and last_fetched_at but
leaves star count, interval, EMA, tier and next_check_at untouched; then
the cadence update, which writes the new star count and cadence fields
without touching the stars rows.  A failure between the two leaves only
the first state visible. -/
theorem claim_C4_two_commits :
    ∀ (db : UserDb) (user : UserRow) (events : List StarEvent) (fetched_at : Int)
      (etag last_modified : Option String) (cfg : Config) (draw : Int),
      events ≠ [] →
      insert_star_events_commit_states db user events fetched_at etag last_modified
          cfg draw =
        [(insert_star_events_tx db events fetched_at etag last_modified).1,
         (insert_star_events db user events fetched_at etag last_modified cfg draw).1] ∧
      (insert_star_events_tx db events fetched_at etag last_modified).1.user.star_count =
        db.user.star_count ∧
      (insert_star_events_tx db events fetched_at etag
        last_modified).1.user.fetch_interval_minutes = db.user.fetch_interval_minutes ∧
      (insert_star_events_tx db events fetched_at etag last_modified).1.user.ema_minutes =
        db.user.ema_minutes ∧
      (insert_star_events_tx db events fetched_at etag last_modified).1.user.activity_tier =
        db.user.activity_tier ∧
      (insert_star_events_tx db events fetched_at etag last_modified).1.user.next_check_at =
        db.user.next_check_at ∧
      (insert_star_events db user events fetched_at etag last_modified cfg draw).1.stars =
        (insert_star_events_tx db events fetched_at etag last_modified).1.stars ∧
      (insert_star_events db user events fetched_at etag last_modified cfg
        draw).1.user.star_count =
        user.star_count + (insert_star_events_tx db events fetched_at etag last_modified).2 := by
  intro db user events fetched_at etag last_modified cfg draw hne
  have hni : events.isEmpty = false := by
    cases events with
    | nil => exact absurd rfl hne
    | cons a t => rfl
  refine ⟨?_, rfl, rfl, rfl, rfl, rfl, ?_, ?_⟩
  · simp only [insert_star_events_commit_states, insert_star_events, hni,
      Bool.false_eq_true, if_false]
  · simp only [insert_star_events, hni, Bool.false_eq_true, if_false]
    rw [update_after_events_stars]
  · simp only [insert_star_events, hni, Bool.false_eq_true, if_false]
    rw [update_after_events_star_count]

/-- C4 witness: the two-commit decomposition at the concrete scenario. -/
theorem claim_C4_witness :
    insert_star_events_commit_states c4_db c4_db.user [c4_event] 200 none none
        cfg_sample 0 =
      [(insert_star_events_tx c4_db [c4_event] 200 none none).1,
       (insert_star_events c4_db c4_db.user [c4_event] 200 none none cfg_sample 0).1] :=
  (claim_C4_two_commits c4_db c4_db.user [c4_event] 200 none none cfg_sample 0
    (by decide)).1

theorem insert_star_events_nil_fst (db : UserDb) (user : UserRow) (f : Int)
    (e l : Option String) (cfg : Config) (d : Int) :
    (insert_star_events db user [] f e l cfg d).1 =
      (update_after_events db user user.last_starred_at f e l cfg 0 [] d).1 := rfl

theorem insert_star_events_cons (db : UserDb) (user : UserRow) (a : StarEvent)
    (t : List StarEvent) (f : Int) (e l : Option String) (cfg : Config) (d : Int) :
    insert_star_events db user (a :: t) f e l cfg d =
      update_after_events (insert_star_events_tx db (a :: t) f e l).1 user none f e l cfg
        (insert_star_events_tx db (a :: t) f e l).2
        (compute_gap_minutes
          ((a :: t).insertionSort (fun x y => x.starred_at ≤ y.starred_at))
          user.last_starred_at) d := rfl

/-- Sample users row for the repeated-batch scenario: three stars ingested,
EMA present. -/
def c6_user : UserRow :=
  { user_id := 1, login := "alice", last_starred_at := some 1000,
    last_fetched_at := none, etag := none, last_modified := none,
    fetch_interval_minutes := 90, next_check_at := 0,
    activity_tier := some "medium", ema_minutes := some 90, star_count := 3 }

/-- Sample state for the repeated-batch scenario. -/
def c6_db : UserDb :=
  { user := c6_user,
    stars := [sample_star_row "alice/r1" 800, sample_star_row "alice/r2" 900,
      sample_star_row "alice/r3" 1000] }

/-- First event of the repeated batch. -/
def c6_ev1 : StarEvent := sample_event "alice/r4" 1060

/-- Second event of the repeated batch. -/
def c6_ev2 : StarEvent := sample_event "alice/r5" 1090

/-- State after the first ingestion of the batch. -/
def c6_first : UserDb :=
  (insert_star_events c6_db c6_db.user [c6_ev1, c6_ev2] 1200 none none cfg_sample 0).1

/-- State after ingesting the identical batch a second time, with the
refreshed user row as the snapshot. -/
def c6_second : UserDb :=
  (insert_star_events c6_first c6_first.user [c6_ev1, c6_ev2] 1300 none none cfg_sample 0).1

/-- C6 counterexample: ingesting the identical two-event batch a second time
inserts no rows, yet it re-applies the EMA smoothing over the in-batch gap,
so the final user state differs from the state after the first call: the
interval moves from 66 to 55 and the EMA from 65.7 to 54.99. -/
theorem claim_C6_counterexample :
    c6_first.user.fetch_interval_minutes = 66 ∧
    c6_second.user.fetch_interval_minutes = 55 ∧
    c6_second.user.fetch_interval_minutes ≠ c6_first.user.fetch_interval_minutes ∧
    c6_second.user.ema_minutes ≠ c6_first.user.ema_minutes := by
  have h1 : c6_first.user.fetch_interval_minutes = 66 ∧
      c6_first.user.ema_minutes = some (657 / 10) := by
    simp [c6_first, c6_db, c6_user, c6_ev1, c6_ev2, cfg_sample, sample_star_row, sample_event,
      insert_star_events, insert_star_events_tx, ingest_step, insert_or_ignore,
      star_key_present, update_after_events, recompute_interval, walkStep, alpha,
      rat_clamp, rat_round, int_clamp, compute_gap_minutes, positive_gap_list,
      compute_average_gap_minutes, List.insertionSort, List.orderedInsert,
      bump_last_starred, coalesce_update, coalesce_keep]
    norm_num
  have h2 : c6_second.user.fetch_interval_minutes = 55 ∧
      c6_second.user.ema_minutes = some (5499 / 100) := by
    simp [c6_second, c6_first, c6_db, c6_user, c6_ev1, c6_ev2, cfg_sample, sample_star_row,
      sample_event, insert_star_events, insert_star_events_tx, ingest_step, insert_or_ignore,
      star_key_present, update_after_events, recompute_interval, walkStep, alpha,
      rat_clamp, rat_round, int_clamp, compute_gap_minutes, positive_gap_list,
      compute_average_gap_minutes, List.insertionSort, List.orderedInsert,
      bump_last_starred, coalesce_update, coalesce_keep]
    norm_num
  refine ⟨h1.1, h2.1, ?_, ?_⟩
  · rw [h1.1, h2.1]
    decide
  · rw [h1.2, h2.2]
    simp only [ne_eq, Option.some.injEq]
    norm_num

/-- C6 amended: a second call of insert_star_events with the identical event
batch, taking the refreshed user row as its snapshot, inserts zero rows and
leaves the stars rows, the star count and last_starred_at unchanged; the
interval and EMA, however, are recomputed from the in-batch gaps and may
change, as the counterexample shows. -/
theorem claim_C6_second_call :
    ∀ (db : UserDb) (user : UserRow) (events : List StarEvent) (f1 f2 : Int)
      (e1 e2 l1 l2 : Option String) (cfg : Config) (d1 d2 : Int) (db1 : UserDb),
      db1 = (insert_star_events db user events f1 e1 l1 cfg d1).1 →
      (insert_star_events_tx db1 events f2 e2 l2).2 = 0 ∧
      (insert_star_events db1 db1.user events f2 e2 l2 cfg d2).1.stars = db1.stars ∧
      (insert_star_events db1 db1.user events f2 e2 l2 cfg d2).1.user.star_count =
        db1.user.star_count ∧
      (insert_star_events db1 db1.user events f2 e2 l2 cfg d2).1.user.last_starred_at =
        db1.user.last_starred_at := by
  intro db user events f1 f2 e1 e2 l1 l2 cfg d1 d2 db1 h1
  cases events with
  | nil =>
    refine ⟨rfl, ?_, ?_, ?_⟩
    · rw [insert_star_events_nil_fst, update_after_events_stars]
    · rw [insert_star_events_nil_fst, update_after_events_star_count]
      omega
    · rw [insert_star_events_nil_fst, update_after_events_last_starred]
      cases hls : db1.user.last_starred_at with
      | none => rfl
      | some x => simp [coalesce_keep]
  | cons a t =>
    have hstars1 : db1.stars = ((a :: t).foldl (ingest_step f1) (db.stars, 0)).1 := by
      rw [h1, insert_star_events_cons, update_after_events_stars]
      rfl
    have hpresent : ∀ ev ∈ (a :: t),
        star_key_present db1.stars ev.repo_full_name ev.starred_at = true := by
      intro ev hm
      rw [hstars1]
      exact ingest_foldl_present_mem f1 (a :: t) (db.stars, 0) ev hm
    have hfold2 := ingest_foldl_noop f2 (a :: t) (db1.stars, 0) hpresent
    have htx2 : (insert_star_events_tx db1 (a :: t) f2 e2 l2).2 = 0 := by
      show ((a :: t).foldl (ingest_step f2) (db1.stars, 0)).2 = 0
      rw [hfold2]
    have htxstars : (insert_star_events_tx db1 (a :: t) f2 e2 l2).1.stars = db1.stars := by
      show ((a :: t).foldl (ingest_step f2) (db1.stars, 0)).1 = db1.stars
      rw [hfold2]
    have hbump1 : db1.user.last_starred_at =
        bump_last_starred db.user.last_starred_at
          (((a :: t).map (fun ev => ev.starred_at)).max?) := by
      rw [h1, insert_star_events_cons, update_after_events_last_starred]
      rfl
    refine ⟨htx2, ?_, ?_, ?_⟩
    · rw [insert_star_events_cons, update_after_events_stars, htxstars]
    · rw [insert_star_events_cons, update_after_events_star_count, htx2]
      omega
    · rw [insert_star_events_cons, update_after_events_last_starred]
      show bump_last_starred db1.user.last_starred_at
        (((a :: t).map (fun ev => ev.starred_at)).max?) = db1.user.last_starred_at
      rw [hbump1, bump_last_starred_idem]

/-- C6 witness: the second-call frame facts at the concrete repeated batch. -/
theorem claim_C6_witness :
    (insert_star_events_tx c6_first [c6_ev1, c6_ev2] 1300 none none).2 = 0 ∧
    (insert_star_events c6_first c6_first.user [c6_ev1, c6_ev2] 1300 none none
      cfg_sample 0).1.stars = c6_first.stars ∧
    (insert_star_events c6_first c6_first.user [c6_ev1, c6_ev2] 1300 none none
      cfg_sample 0).1.user.star_count = c6_first.user.star_count ∧
    (insert_star_events c6_first c6_first.user [c6_ev1, c6_ev2] 1300 none none
      cfg_sample 0).1.user.last_starred_at = c6_first.user.last_starred_at :=
  claim_C6_second_call c6_db c6_db.user [c6_ev1, c6_ev2] 1200 1300 none none none none
    cfg_sample 0 0 c6_first rfl
